import Mathlib

/-!
Shallow embedding of `src/app.py`, a minimal Flask greeting server:

  @app.route('/')
  def hello():
      message = os.getenv('MESSAGE', 'Hello, Default!')
      return f"<h1>{message}</h1>"

  if __name__ == "__main__":
      app.run(host="0.0.0.0", port=80)

The process environment is a partial map from names to strings; the
handler and the route dispatch are pure functions of the environment and
the request. Framework-provided behavior (the 200/text-html wrapping of a
string return value, the default 404 and 405 responses, and the
bind-and-serve loop of `app.run`) is not in src/ and is modelled from the
spec where a claim depends on it.
-/

/-- The process environment: a partial map from variable names to values. -/
def Env : Type := String → Option String

/-- Embedding of `os.getenv(name, default)`: the value of `name` when the
variable is present (even when its value is the empty string), the default
only when the variable is entirely absent. -/
def getenv (env : Env) (name default : String) : String :=
  match env name with
  | some v => v
  | none => default

/-- Embedding of the handler `hello` in `src/app.py`: read `MESSAGE` with
default `"Hello, Default!"` and wrap the result in an `<h1>` element, with
no escaping (a straight f-string interpolation). -/
def hello (env : Env) : String :=
  "<h1>" ++ getenv env "MESSAGE" "Hello, Default!" ++ "</h1>"

/-- An HTTP request, as far as the program can observe one. -/
structure Request where
  method : String
  path : String
  headers : List (String × String)
  query : String
  body : String
deriving DecidableEq

/-- An HTTP response: status code, content type, body. -/
structure Response where
  status : Nat
  contentType : String
  body : String
deriving DecidableEq

/-- Modelled from the spec: the framework wraps a string returned by a
handler into a 200 response with content type text/html. -/
def flaskStringResponse (s : String) : Response :=
  { status := 200, contentType := "text/html", body := s }

/-- Modelled from the spec: the framework default not-found response for a
path with no registered route (HTTP 404). -/
def notFound : Response :=
  { status := 404, contentType := "text/html", body := "404 Not Found" }

/-- Modelled from the spec: the framework default response for a registered
path with a method the route does not accept (HTTP 405). -/
def methodNotAllowed : Response :=
  { status := 405, contentType := "text/html", body := "405 Method Not Allowed" }

/-- The registered routes of the app: exactly one decorator,
`@app.route('/')`, appears in `src/app.py`. -/
def routes : List String := ["/"]

/-- Route dispatch: the single route `/` serves `hello` on GET; other
methods on `/` get the framework default 405, and any other path gets the
framework default 404. -/
def serve (env : Env) (req : Request) : Response :=
  if req.path = "/" then
    if req.method = "GET" then flaskStringResponse (hello env)
    else methodNotAllowed
  else notFound

/-- Server state threaded through request handling: the only state the
program can touch is the process environment. -/
structure ServerState where
  env : Env

/-- Handling one request: the handler in `src/app.py` only reads the
environment and formats a string, so the state passes through unchanged. -/
def handle (st : ServerState) (req : Request) : ServerState × Response :=
  (st, serve st.env req)

/-- A sequence of requests to the same path, each served under the
environment current at that moment: the handler re-reads `MESSAGE` inside
its body, so every request sees its own environment. -/
def serveTrace (envs : List Env) (req : Request) : List Response :=
  envs.map (fun e => serve e req)

/-- Host argument of `app.run` in `src/app.py`. -/
def runHost : String := "0.0.0.0"

/-- Port argument of `app.run` in `src/app.py`. -/
def runPort : Nat := 80

/-- Startup outcome: either a listening server or a process exit code. -/
inductive StartOutcome where
  | listening (host : String) (port : Nat)
  | exited (code : Nat)
deriving DecidableEq

/-- Modelled from the spec: the bind-and-serve behavior of `app.run` lives
in the framework, not in src/. Per the spec, a bind failure on the
configured host and port is fatal: the process exits non-zero before
accepting any connections, and this is the only fatal condition. -/
def startServer (bindOk : Bool) : StartOutcome :=
  if bindOk then StartOutcome.listening runHost runPort
  else StartOutcome.exited 1

/-- A concrete plain GET request to the root path. -/
def rootGet : Request :=
  { method := "GET", path := "/", headers := [], query := "", body := "" }

/-- The empty environment: no variable is set. -/
def emptyEnv : Env := fun _ => none

/-- An environment whose only variable is `MESSAGE`, bound to `s`. -/
def msgEnv (s : String) : Env :=
  fun n => if n = "MESSAGE" then some s else none

/-- Appending the fixed `<h1>` and `</h1>` wrappers is injective in the
wrapped string. -/
theorem h1_wrap_inj {s1 s2 : String}
    (h : "<h1>" ++ s1 ++ "</h1>" = "<h1>" ++ s2 ++ "</h1>") : s1 = s2 := by
  have hd : ("<h1>" ++ s1 ++ "</h1>").data = ("<h1>" ++ s2 ++ "</h1>").data := by
    rw [h]
  simp [String.data_append] at hd
  exact String.ext hd

/-- C1: a GET request to the root path with MESSAGE unset gets status 200
and body exactly `<h1>Hello, Default!</h1>`. -/
theorem c1_root_get_default (env : Env) (req : Request)
    (hm : env "MESSAGE" = none)
    (hmeth : req.method = "GET") (hpath : req.path = "/") :
    (serve env req).status = 200 ∧
    (serve env req).body = "<h1>Hello, Default!</h1>" := by
  simp [serve, hmeth, hpath, flaskStringResponse, hello, getenv, hm]

/-- Witness for C1 at the empty environment and a plain root GET. -/
theorem c1_root_get_default_witness :
    (serve emptyEnv rootGet).status = 200 ∧
    (serve emptyEnv rootGet).body = "<h1>Hello, Default!</h1>" :=
  c1_root_get_default emptyEnv rootGet rfl rfl rfl

/-- C2: for every string s bound to MESSAGE (empty or HTML-significant
included), the body of the GET / response is `<h1>` ++ s ++ `</h1>` with s
inserted verbatim and no escaping. -/
theorem c2_verbatim_substitution (env : Env) (s : String) (req : Request)
    (hm : env "MESSAGE" = some s)
    (hmeth : req.method = "GET") (hpath : req.path = "/") :
    (serve env req).body = "<h1>" ++ s ++ "</h1>" := by
  simp [serve, hmeth, hpath, flaskStringResponse, hello, getenv, hm]

/-- Witness for C2 at a MESSAGE value full of HTML-significant characters. -/
theorem c2_verbatim_substitution_witness :
    (serve (msgEnv "<b>&\"</b>") rootGet).body =
      "<h1>" ++ "<b>&\"</b>" ++ "</h1>" :=
  c2_verbatim_substitution (msgEnv "<b>&\"</b>") "<b>&\"</b>" rootGet rfl rfl rfl

/-- C3 counterexample: with MESSAGE set to the empty string the body is
`<h1></h1>`, not the claimed `<h1>Hello, Default!</h1>`: the default is not
substituted for an empty value. -/
theorem c3_counterexample :
    (msgEnv "") "MESSAGE" = some "" ∧
    (serve (msgEnv "") rootGet).body = "<h1></h1>" ∧
    (serve (msgEnv "") rootGet).body ≠ "<h1>Hello, Default!</h1>" := by
  refine ⟨rfl, rfl, ?_⟩
  decide

/-- C3 amended: the default greeting is used only when MESSAGE is entirely
absent; when MESSAGE is present with the empty string value, the body is
`<h1></h1>`. -/
theorem c3_default_only_when_absent (env : Env) (req : Request)
    (hmeth : req.method = "GET") (hpath : req.path = "/") :
    (env "MESSAGE" = none →
      (serve env req).body = "<h1>Hello, Default!</h1>") ∧
    (env "MESSAGE" = some "" → (serve env req).body = "<h1></h1>") := by
  constructor
  · intro hm
    simp [serve, hmeth, hpath, flaskStringResponse, hello, getenv, hm]
  · intro hm
    simp [serve, hmeth, hpath, flaskStringResponse, hello, getenv, hm]

/-- Witness for the amended C3 at the environment binding MESSAGE to the
empty string. -/
theorem c3_default_only_when_absent_witness :
    ((msgEnv "") "MESSAGE" = none →
      (serve (msgEnv "") rootGet).body = "<h1>Hello, Default!</h1>") ∧
    ((msgEnv "") "MESSAGE" = some "" →
      (serve (msgEnv "") rootGet).body = "<h1></h1>") :=
  c3_default_only_when_absent (msgEnv "") rootGet rfl rfl

/-- C4: an empty MESSAGE value counts as present, not unset: the body is
exactly `<h1></h1>` and the default is not triggered. -/
theorem c4_empty_value_is_present (env : Env) (req : Request)
    (hm : env "MESSAGE" = some "")
    (hmeth : req.method = "GET") (hpath : req.path = "/") :
    (serve env req).body = "<h1></h1>" ∧
    (serve env req).body ≠ "<h1>Hello, Default!</h1>" := by
  have hb : (serve env req).body = "<h1></h1>" := by
    simp [serve, hmeth, hpath, flaskStringResponse, hello, getenv, hm]
  refine ⟨hb, ?_⟩
  rw [hb]
  decide

/-- Witness for C4 at the environment binding MESSAGE to the empty string. -/
theorem c4_empty_value_is_present_witness :
    (serve (msgEnv "") rootGet).body = "<h1></h1>" ∧
    (serve (msgEnv "") rootGet).body ≠ "<h1>Hello, Default!</h1>" :=
  c4_empty_value_is_present (msgEnv "") rootGet rfl rfl rfl

/-- C5: the app registers exactly the one route `/`, and every request to
any other path gets the framework default not-found response (404). -/
theorem c5_single_route_404 :
    routes = ["/"] ∧
    ∀ (env : Env) (req : Request), req.path ∉ routes →
      serve env req = notFound ∧ (serve env req).status = 404 := by
  refine ⟨rfl, ?_⟩
  intro env req h
  have hp : req.path ≠ "/" := by simpa [routes] using h
  simp [serve, hp, notFound]

/-- Witness for C5 at a GET request to `/nonexistent`. -/
theorem c5_single_route_404_witness :
    serve emptyEnv
        { method := "GET", path := "/nonexistent", headers := [],
          query := "", body := "" } = notFound ∧
    (serve emptyEnv
        { method := "GET", path := "/nonexistent", headers := [],
          query := "", body := "" }).status = 404 :=
  c5_single_route_404.2 emptyEnv
    { method := "GET", path := "/nonexistent", headers := [],
      query := "", body := "" } (by decide)

/-- C6: when the bind on the configured host and port fails, startup ends
in a non-zero process exit and no listening server; and a non-listening
outcome arises only from a bind failure, always with a non-zero code. -/
theorem c6_bind_failure_fatal :
    (startServer false = StartOutcome.exited 1 ∧ (1 : Nat) ≠ 0) ∧
    (∀ (b : Bool) (c : Nat), startServer b = StartOutcome.exited c →
      b = false ∧ c ≠ 0) := by
  refine ⟨⟨rfl, by decide⟩, ?_⟩
  intro b c h
  cases b with
  | false =>
    simp [startServer] at h
    exact ⟨rfl, by omega⟩
  | true =>
    simp [startServer] at h

/-- Witness for C6 at a failed bind with exit code 1. -/
theorem c6_bind_failure_fatal_witness :
    (false : Bool) = false ∧ (1 : Nat) ≠ 0 :=
  c6_bind_failure_fatal.2 false 1 rfl

/-- C7: the server is configured to listen on all interfaces, host
0.0.0.0, port 80, and a successful startup listens exactly there. -/
theorem c7_listen_all_interfaces_port_80 :
    runHost = "0.0.0.0" ∧ runPort = 80 ∧
    startServer true = StartOutcome.listening "0.0.0.0" 80 :=
  ⟨rfl, rfl, rfl⟩

/-- C8: every response to GET / has status 200 and content type text/html,
for every environment. -/
theorem c8_status_and_content_type (env : Env) (req : Request)
    (hmeth : req.method = "GET") (hpath : req.path = "/") :
    (serve env req).status = 200 ∧
    (serve env req).contentType = "text/html" := by
  simp [serve, hmeth, hpath, flaskStringResponse]

/-- Witness for C8 at the empty environment and a plain root GET. -/
theorem c8_status_and_content_type_witness :
    (serve emptyEnv rootGet).status = 200 ∧
    (serve emptyEnv rootGet).contentType = "text/html" :=
  c8_status_and_content_type emptyEnv rootGet rfl rfl

/-- C9: MESSAGE is re-read on every request: two requests served under two
environments each reflect the MESSAGE value of their own environment, and
distinct MESSAGE values produce distinct responses, so no cached value can
survive an environment change. -/
theorem c9_message_reread_per_request (e1 e2 : Env) (s1 s2 : String)
    (req : Request)
    (h1 : e1 "MESSAGE" = some s1) (h2 : e2 "MESSAGE" = some s2)
    (hmeth : req.method = "GET") (hpath : req.path = "/") :
    serveTrace [e1, e2] req =
      [flaskStringResponse ("<h1>" ++ s1 ++ "</h1>"),
       flaskStringResponse ("<h1>" ++ s2 ++ "</h1>")] ∧
    (s1 ≠ s2 → serve e1 req ≠ serve e2 req) := by
  have hb1 : serve e1 req = flaskStringResponse ("<h1>" ++ s1 ++ "</h1>") := by
    simp [serve, hmeth, hpath, hello, getenv, h1]
  have hb2 : serve e2 req = flaskStringResponse ("<h1>" ++ s2 ++ "</h1>") := by
    simp [serve, hmeth, hpath, hello, getenv, h2]
  constructor
  · simp [serveTrace, hb1, hb2]
  · intro hne heq
    rw [hb1, hb2] at heq
    exact hne (h1_wrap_inj (congrArg Response.body heq))

/-- Witness for C9 at two environments binding MESSAGE to `A` and `B`. -/
theorem c9_message_reread_per_request_witness :
    serveTrace [msgEnv "A", msgEnv "B"] rootGet =
      [flaskStringResponse ("<h1>" ++ "A" ++ "</h1>"),
       flaskStringResponse ("<h1>" ++ "B" ++ "</h1>")] ∧
    ("A" ≠ "B" → serve (msgEnv "A") rootGet ≠ serve (msgEnv "B") rootGet) :=
  c9_message_reread_per_request (msgEnv "A") (msgEnv "B") "A" "B" rootGet
    rfl rfl rfl rfl

/-- C10: the handler depends only on the environment: two GET / requests
under the same state get identical responses whatever their headers, query
string or body, and handling mutates no state. -/
theorem c10_depends_only_on_env (st : ServerState) (r1 r2 : Request)
    (h1m : r1.method = "GET") (h2m : r2.method = "GET")
    (h1p : r1.path = "/") (h2p : r2.path = "/") :
    handle st r1 = handle st r2 ∧ (handle st r1).1 = st := by
  refine ⟨?_, rfl⟩
  simp [handle, serve, h1m, h2m, h1p, h2p]

/-- Witness for C10 at two root GET requests differing in headers, query
string and body. -/
theorem c10_depends_only_on_env_witness :
    handle { env := msgEnv "X" }
        { method := "GET", path := "/", headers := [("X-Extra", "v")],
          query := "a=1", body := "payload" } =
      handle { env := msgEnv "X" } rootGet ∧
    (handle { env := msgEnv "X" }
        { method := "GET", path := "/", headers := [("X-Extra", "v")],
          query := "a=1", body := "payload" }).1 = { env := msgEnv "X" } :=
  c10_depends_only_on_env { env := msgEnv "X" }
    { method := "GET", path := "/", headers := [("X-Extra", "v")],
      query := "a=1", body := "payload" } rootGet rfl rfl rfl rfl
